import Mathlib

/-!
Verification development for the EarnSphere backend (`src/server.js`), an
Express application with registration, login, Razorpay order creation,
payment verification, a contact form and a paywalled dashboard.

The JavaScript handlers are shallowly embedded as pure Lean functions over
explicit state (the `users` table becomes a list of `User` records, the
Express session becomes a `Session` record); external effects that can fail
(Postgres queries, the Razorpay gateway, bcrypt) are passed in as explicit
parameters or outcome flags.  The Node `crypto.createHmac('sha256', key)`
primitive is modelled concretely: a full executable HMAC-SHA-256 over byte
lists, rendered as a lowercase hex digest exactly as `.digest('hex')` does.
-/

namespace Crypto

/-- Truncation to a 32-bit word. -/
def w32 (n : Nat) : Nat := n % 4294967296

/-- Right rotation of a 32-bit word by `n` bits. -/
def rotr (n x : Nat) : Nat := w32 ((x >>> n) ||| (x <<< (32 - n)))

/-- Bitwise complement of a 32-bit word. -/
def bnot32 (x : Nat) : Nat := x ^^^ 0xffffffff

/-- SHA-256 choice function. -/
def ch (x y z : Nat) : Nat := (x &&& y) ^^^ (bnot32 x &&& z)

/-- SHA-256 majority function. -/
def maj (x y z : Nat) : Nat := (x &&& y) ^^^ (x &&& z) ^^^ (y &&& z)

/-- SHA-256 big sigma 0. -/
def bigS0 (x : Nat) : Nat := rotr 2 x ^^^ rotr 13 x ^^^ rotr 22 x

/-- SHA-256 big sigma 1. -/
def bigS1 (x : Nat) : Nat := rotr 6 x ^^^ rotr 11 x ^^^ rotr 25 x

/-- SHA-256 small sigma 0. -/
def smallS0 (x : Nat) : Nat := rotr 7 x ^^^ rotr 18 x ^^^ (x >>> 3)

/-- SHA-256 small sigma 1. -/
def smallS1 (x : Nat) : Nat := rotr 17 x ^^^ rotr 19 x ^^^ (x >>> 10)

/-- The 64 SHA-256 round constants (FIPS 180-4 section 4.2.2), in decimal. -/
def K : Array Nat := #[
  1116352408, 1899447441, 3049323471, 3921009573, 961987163,
  1508970993, 2453635748, 2870763221, 3624381080, 310598401,
  607225278, 1426881987, 1925078388, 2162078206, 2614888103,
  3248222580, 3835390401, 4022224774, 264347078, 604807628,
  770255983, 1249150122, 1555081692, 1996064986, 2554220882,
  2821834349, 2952996808, 3210313671, 3336571891, 3584528711,
  113926993, 338241895, 666307205, 773529912, 1294757372,
  1396182291, 1695183700, 1986661051, 2177026350, 2456956037,
  2730485921, 2820302411, 3259730800, 3345764771, 3516065817,
  3600352804, 4094571909, 275423344, 430227734, 506948616,
  659060556, 883997877, 958139571, 1322822218, 1537002063,
  1747873779, 1955562222, 2024104815, 2227730452, 2361852424,
  2428436474, 2756734187, 3204031479, 3329325298]

/-- The eight 32-bit words of a SHA-256 chaining state. -/
structure Hash8 where
  a : Nat
  b : Nat
  c : Nat
  d : Nat
  e : Nat
  f : Nat
  g : Nat
  h : Nat

/-- The SHA-256 initial hash value (FIPS 180-4 section 5.3.3), in decimal. -/
def initH : Hash8 :=
  ⟨1779033703, 3144134277, 1013904242, 2773480762,
   1359893119, 2600822924, 528734635, 1541459225⟩

/-- Group a byte list into big-endian 32-bit words. -/
def words4 : List Nat → List Nat
  | a :: b :: c :: d :: rest => (((a <<< 8 ||| b) <<< 8 ||| c) <<< 8 ||| d) :: words4 rest
  | _ => []

/-- Extend the 16 words of a block to the 64-word message schedule. -/
def schedule (ws : Array Nat) : Array Nat :=
  (List.range 48).foldl (fun arr i =>
    arr.push (w32 (smallS1 arr[i + 14]! + arr[i + 9]! + smallS0 arr[i + 1]! + arr[i]!))) ws

/-- One SHA-256 compression round. -/
def round (st : Hash8) (k w : Nat) : Hash8 :=
  let t1 := w32 (st.h + bigS1 st.e + ch st.e st.f st.g + k + w)
  let t2 := w32 (bigS0 st.a + maj st.a st.b st.c)
  ⟨w32 (t1 + t2), st.a, st.b, st.c, w32 (st.d + t1), st.e, st.f, st.g⟩

/-- Compress one 64-byte block into the chaining state. -/
def compress (st : Hash8) (block : List Nat) : Hash8 :=
  let ws := schedule (words4 block).toArray
  let r := (List.range 64).foldl (fun s i => round s K[i]! ws[i]!) st
  ⟨w32 (st.a + r.a), w32 (st.b + r.b), w32 (st.c + r.c), w32 (st.d + r.d),
   w32 (st.e + r.e), w32 (st.f + r.f), w32 (st.g + r.g), w32 (st.h + r.h)⟩

/-- Big-endian bytes of a 64-bit length field. -/
def be64 (n : Nat) : List Nat :=
  [(n >>> 56) &&& 255, (n >>> 48) &&& 255, (n >>> 40) &&& 255, (n >>> 32) &&& 255,
   (n >>> 24) &&& 255, (n >>> 16) &&& 255, (n >>> 8) &&& 255, n &&& 255]

/-- Big-endian bytes of a 32-bit word. -/
def be32 (n : Nat) : List Nat :=
  [(n >>> 24) &&& 255, (n >>> 16) &&& 255, (n >>> 8) &&& 255, n &&& 255]

/-- SHA-256 message padding: 0x80, zeros to 56 mod 64, then the 64-bit bit length. -/
def pad (m : List Nat) : List Nat :=
  m ++ 0x80 :: List.replicate ((119 - m.length % 64) % 64) 0 ++ be64 (8 * m.length)

/-- Split a byte list into 64-byte blocks, structurally recursive on a fuel
bound that the wrapper instantiates with the list length. -/
def toBlocksAux : Nat → List Nat → List (List Nat)
  | 0, _ => []
  | _ + 1, [] => []
  | n + 1, l => l.take 64 :: toBlocksAux n (l.drop 64)

/-- Split a byte list into 64-byte blocks. -/
def toBlocks (l : List Nat) : List (List Nat) := toBlocksAux l.length l

/-- SHA-256 of a byte list, as 32 output bytes. -/
def sha256 (m : List Nat) : List Nat :=
  let fin := (toBlocks (pad m)).foldl compress initH
  be32 fin.a ++ be32 fin.b ++ be32 fin.c ++ be32 fin.d ++
  be32 fin.e ++ be32 fin.f ++ be32 fin.g ++ be32 fin.h

/-- HMAC-SHA-256 over byte lists (RFC 2104 with a 64-byte block). -/
def hmacSha256 (key msg : List Nat) : List Nat :=
  let k0 := if 64 < key.length then sha256 key else key
  let kp := k0 ++ List.replicate (64 - k0.length) 0
  sha256 (kp.map (fun b => b ^^^ 0x5c) ++ sha256 (kp.map (fun b => b ^^^ 0x36) ++ msg))

/-- UTF-8 bytes of one code point. -/
def utf8Char (c : Nat) : List Nat :=
  if c < 0x80 then [c]
  else if c < 0x800 then [0xc0 ||| (c >>> 6), 0x80 ||| (c &&& 0x3f)]
  else if c < 0x10000 then
    [0xe0 ||| (c >>> 12), 0x80 ||| ((c >>> 6) &&& 0x3f), 0x80 ||| (c &&& 0x3f)]
  else
    [0xf0 ||| (c >>> 18), 0x80 ||| ((c >>> 12) &&& 0x3f),
     0x80 ||| ((c >>> 6) &&& 0x3f), 0x80 ||| (c &&& 0x3f)]

/-- UTF-8 bytes of a string, as Node hands string inputs to `crypto`. -/
def utf8 (s : String) : List Nat :=
  s.data.foldr (fun c acc => utf8Char c.toNat ++ acc) []

/-- Hex digit characters, lowercase for values 10 to 15 (97 is 'a'). -/
def hexDigit (n : Nat) : Char := if n < 10 then Char.ofNat (48 + n) else Char.ofNat (87 + n)

/-- Lowercase hex rendering of a byte list, as `.digest('hex')` produces. -/
def bytesToHex (bs : List Nat) : String :=
  ⟨bs.foldr (fun b cs => hexDigit (b / 16) :: hexDigit (b % 16) :: cs) []⟩

/-- HMAC-SHA-256 of UTF-8 strings rendered as a lowercase hex digest: the model
of `crypto.createHmac('sha256', key).update(msg).digest('hex')`. -/
def hmacHex (key msg : String) : String := bytesToHex (hmacSha256 (utf8 key) (utf8 msg))

end Crypto

namespace Server

open Crypto

/-- A row of the `users` table (src/server.js lines 46 to 53): `id SERIAL`,
`name`, `email UNIQUE`, `password` (the bcrypt hash), `has_paid BOOLEAN
DEFAULT false`.  The `created_at` timestamp plays no role in any handler. -/
structure User where
  id : Nat
  name : String
  email : String
  password : String
  hasPaid : Bool
deriving DecidableEq

/-- The `users` table as a list of rows. -/
abbrev Store := List User

/-- The express-session state visible to the handlers: `req.session.userId`
(absent until login) and `req.session.hasPaid` (absent reads as false). -/
structure Session where
  userId : Option Nat := none
  hasPaid : Bool := false
deriving DecidableEq

/-- JavaScript truthiness of the optional numeric `req.session.userId`:
`undefined` and `0` are falsy (ids from `SERIAL` start at 1, so 0 never
occurs in practice, but the embedding keeps the JS test faithfully). -/
def truthyId : Option Nat → Bool
  | none => false
  | some n => n != 0

/-- Lookup `SELECT * FROM users WHERE email=$1` (email is UNIQUE, so the
first match is the row). -/
def findByEmail (store : Store) (email : String) : Option User :=
  store.find? (fun u => u.email == email)

/-- Lookup a user row by id. -/
def findUser (store : Store) (uid : Nat) : Option User :=
  store.find? (fun u => u.id == uid)

/-- Whether the store records `has_paid = true` for the given id. -/
def hasPaidIn (store : Store) (uid : Nat) : Bool :=
  match findUser store uid with
  | some u => u.hasPaid
  | none => false

/-- Outcome of POST /register (src/server.js lines 62 to 73). -/
inductive RegisterResult where
  | allFieldsRequired
  | registered
  | userExistsOrDbError
deriving DecidableEq

/-- HTTP status of a register outcome. -/
def RegisterResult.status : RegisterResult → Nat
  | .allFieldsRequired => 400
  | .registered => 200
  | .userExistsOrDbError => 500

/-- Result and post-state of POST /register. -/
structure RegisterOut where
  result : RegisterResult
  store : Store

/-- POST /register (src/server.js lines 62 to 73): reject empty or missing
fields, bcrypt-hash the password (`hash` stands for `bcrypt.hash`), INSERT
the row; `has_paid` takes the DDL default false.  A duplicate email violates
the UNIQUE constraint and any other query failure lands in the same catch
(`dbOk = false`), answered 500 with the store unchanged. -/
def register (hash : String → String) (name email password : String) (nextId : Nat)
    (store : Store) (dbOk : Bool) : RegisterOut :=
  if name == "" || email == "" || password == "" then ⟨.allFieldsRequired, store⟩
  else if !dbOk || store.any (fun u => u.email == email) then ⟨.userExistsOrDbError, store⟩
  else ⟨.registered, store ++ [⟨nextId, name, email, hash password, false⟩]⟩

/-- Response and post-session of POST /login. -/
structure LoginOut where
  status : Nat
  body : String
  sess : Session

/-- POST /login (src/server.js lines 75 to 85): look the user up by email,
answer `401 "Invalid"` if absent; check the password with `bcrypt.compare`
(`verify` stands for it), answer the same `401 "Invalid"` on mismatch;
otherwise set `req.session.userId` and `req.session.hasPaid` from the row. -/
def login (verify : String → String → Bool) (email password : String)
    (store : Store) (sess : Session) : LoginOut :=
  match findByEmail store email with
  | none => ⟨401, "Invalid", sess⟩
  | some u =>
    if !verify password u.password then ⟨401, "Invalid", sess⟩
    else ⟨200, "Login successful", { sess with userId := some u.id, hasPaid := u.hasPaid }⟩

/-- The argument object of `razorpay.orders.create` (src/server.js lines 91
to 95). -/
structure OrderReq where
  amount : Nat
  currency : String
  receipt : String
deriving DecidableEq

/-- The fee, `const amount = 20000` (src/server.js line 89): 200 rupees in
paise, a server-side constant. -/
def fixedAmount : Nat := 20000

/-- The request POST /create-order sends to the gateway: the fixed amount,
INR, and a receipt derived from the clock (`now` stands for `Date.now()`). -/
def createOrderReq (now : Nat) : OrderReq :=
  { amount := fixedAmount, currency := "INR", receipt := "rcpt_" ++ toString now }

/-- Outcome of POST /create-order over an opaque gateway order type. -/
inductive CreateOrderResult (α : Type) where
  | json (order : α)
  | orderCreationFailed
deriving DecidableEq

/-- HTTP status of a create-order outcome. -/
def CreateOrderResult.status {α : Type} : CreateOrderResult α → Nat
  | .json _ => 200
  | .orderCreationFailed => 500

/-- POST /create-order (src/server.js lines 88 to 101): call the gateway
(`gw` stands for `razorpay.orders.create`, which may fail) with the fixed
request and return its order object verbatim as JSON; on failure answer
`500 'Order creation failed'`.  The handler never reads the request body,
which is passed here only to state that independence. -/
def createOrder {α : Type} (gw : OrderReq → Except Unit α) (now : Nat)
    (_body : List (String × String)) : CreateOrderResult α :=
  match gw (createOrderReq now) with
  | .ok order => .json order
  | .error _ => .orderCreationFailed

/-- The JSON body of POST /payment-success (src/server.js line 104). -/
structure PayBody where
  razorpay_payment_id : String
  razorpay_order_id : String
  razorpay_signature : String
deriving DecidableEq

/-- Outcome of POST /payment-success. -/
inductive PayResult where
  | loginRequired
  | invalidSignature
  | ok
  | dbError
deriving DecidableEq

/-- HTTP status of a payment-success outcome: `401 'Login required'`,
`400 'Invalid signature'`, `200` with ok true, `500 'DB error'`. -/
def PayResult.status : PayResult → Nat
  | .loginRequired => 401
  | .invalidSignature => 400
  | .ok => 200
  | .dbError => 500

/-- Observable events of one run of the payment-success handler, in program
order: the session check (line 106), the HMAC computation (line 108), the
UPDATE of the users table (line 117), the session cache update (line 118). -/
inductive Ev where
  | sessionCheck
  | hmacComputed
  | storeWrite (uid : Nat)
  | sessionSet
deriving DecidableEq

/-- Result, post-state and event trace of POST /payment-success. -/
structure PayOut where
  result : PayResult
  store : Store
  sess : Session
  trace : List Ev

/-- The effect of `UPDATE users SET has_paid = true WHERE id = $1`. -/
def setPaid (store : Store) (uid : Nat) : Store :=
  store.map (fun u => if u.id == uid then { u with hasPaid := true } else u)

/-- POST /payment-success (src/server.js lines 103 to 124): reject 401 when
the session carries no (truthy) userId; recompute the signature as
HMAC-SHA256 keyed by `RAZORPAY_KEY_SECRET` over
`razorpay_order_id + '|' + razorpay_payment_id` as a hex digest; reject 400
on mismatch; otherwise run the UPDATE (`dbOk = false` lands in the catch,
answered 500 with the session cache untouched), then set
`req.session.hasPaid = true` and answer 200. -/
def paymentSuccess (secret : String) (body : PayBody) (sess : Session)
    (store : Store) (dbOk : Bool) : PayOut :=
  if !truthyId sess.userId then ⟨.loginRequired, store, sess, [.sessionCheck]⟩
  else
    let sessionUserId := sess.userId.getD 0
    let generated_signature :=
      hmacHex secret (body.razorpay_order_id ++ "|" ++ body.razorpay_payment_id)
    if generated_signature != body.razorpay_signature then
      ⟨.invalidSignature, store, sess, [.sessionCheck, .hmacComputed]⟩
    else if dbOk then
      ⟨.ok, setPaid store sessionUserId, { sess with hasPaid := true },
        [.sessionCheck, .hmacComputed, .storeWrite sessionUserId, .sessionSet]⟩
    else
      ⟨.dbError, store, sess, [.sessionCheck, .hmacComputed]⟩

/-- Outcome of GET /dashboard. -/
inductive DashboardResult where
  | redirectLogin
  | redirectPayment
  | serveDashboard
deriving DecidableEq

/-- GET /dashboard (src/server.js lines 156 to 160): redirect to
`/login.html` without a session user, redirect to `/payment.html` when the
cached `hasPaid` is falsy, otherwise serve `dashboard.html`.  The handler
takes only the session: it runs no query against the users table. -/
def dashboard (sess : Session) : DashboardResult :=
  if !truthyId sess.userId then .redirectLogin
  else if !sess.hasPaid then .redirectPayment
  else .serveDashboard

/-- Session middleware secret (src/server.js line 34):
`process.env.SESSION_SECRET || 'change_this_secret'`; the JS `||` also
replaces an empty string, which is falsy. -/
def sessionSecret (env : Option String) : String :=
  match env with
  | some s => if s == "" then "change_this_secret" else s
  | none => "change_this_secret"

/-- Whether startup flags a missing SESSION_SECRET as a deployment error
(src/server.js lines 33 to 37): no code path checks the variable or reports
anything, so this is constantly false — the fallback is silent. -/
def flagsMissingSessionSecret (_env : Option String) : Bool := false

/-- Modelled from the spec: "absence of the session secret ... must be
flagged as a deployment error, not silently accepted" — the flag the spec
demands, true exactly when the configuration value is absent. -/
def specFlagsMissingSessionSecret (env : Option String) : Bool := env.isNone

/-- The in-scope operations, with every input each handler consumes; used to
state store invariants across the whole program.  /create-order, /contact
and GET /dashboard contain no query that writes the users table. -/
inductive Op where
  | register (hash : String → String) (name email password : String) (nextId : Nat) (dbOk : Bool)
  | login (verify : String → String → Bool) (email password : String) (sess : Session)
  | createOrder
  | paymentSuccess (secret : String) (body : PayBody) (sess : Session) (dbOk : Bool)
  | contact
  | dashboard

/-- The users table after one operation.  Only /register (INSERT) and
/payment-success (UPDATE) write it; /login only SELECTs, and the remaining
handlers never touch the database. -/
def stepStore : Op → Store → Store
  | .register hash n e p nid ok, st => (register hash n e p nid st ok).store
  | .login _ _ _ _, st => st
  | .createOrder, st => st
  | .paymentSuccess secret body sess ok, st => (paymentSuccess secret body sess st ok).store
  | .contact, st => st
  | .dashboard, st => st

end Server

namespace Crypto

theorem and255_lt (x : Nat) : x &&& 255 < 256 :=
  Nat.lt_succ_of_le Nat.and_le_right

theorem be32_mem_lt {b w : Nat} (h : b ∈ be32 w) : b < 256 := by
  simp only [be32, List.mem_cons, List.not_mem_nil, or_false] at h
  rcases h with h | h | h | h <;> subst h <;> exact and255_lt _

theorem sha256_mem_lt {b : Nat} (m : List Nat) (h : b ∈ sha256 m) : b < 256 := by
  simp only [sha256, List.mem_append] at h
  rcases h with ((((((h | h) | h) | h) | h) | h) | h) | h <;> exact be32_mem_lt h

theorem hexDigit_mem {d : Nat} (h : d < 16) : hexDigit d ∈ ("0123456789abcdef").data := by
  have hall : ∀ d < 16, hexDigit d ∈ ("0123456789abcdef").data := by decide
  exact hall d h

theorem bytesToHex_data (b : Nat) (bs : List Nat) :
    (bytesToHex (b :: bs)).data = hexDigit (b / 16) :: hexDigit (b % 16) :: (bytesToHex bs).data :=
  rfl

theorem bytesToHex_chars {bs : List Nat} (hb : ∀ b ∈ bs, b < 256) :
    ∀ c ∈ (bytesToHex bs).data, c ∈ ("0123456789abcdef").data := by
  induction bs with
  | nil => intro c hc; simp [bytesToHex] at hc
  | cons b bs ih =>
    intro c hc
    rw [bytesToHex_data] at hc
    have hblt : b < 256 := hb b (List.mem_cons_self _ _)
    simp only [List.mem_cons] at hc
    rcases hc with rfl | rfl | hc
    · exact hexDigit_mem (by omega)
    · exact hexDigit_mem (by omega)
    · exact ih (fun x hx => hb x (List.mem_cons_of_mem _ hx)) c hc

theorem hmacHex_chars (key msg : String) :
    ∀ c ∈ (hmacHex key msg).data, c ∈ ("0123456789abcdef").data := by
  have hlt : ∀ b ∈ hmacSha256 (utf8 key) (utf8 msg), b < 256 := by
    intro b hb
    simp only [hmacSha256] at hb
    exact sha256_mem_lt _ hb
  simp only [hmacHex]
  exact bytesToHex_chars hlt

theorem bytesToHex_length (bs : List Nat) : (bytesToHex bs).length = 2 * bs.length := by
  induction bs with
  | nil => rfl
  | cons b bs ih =>
    have hd : (bytesToHex (b :: bs)).length = (bytesToHex (b :: bs)).data.length := rfl
    have ht : (bytesToHex bs).length = (bytesToHex bs).data.length := rfl
    rw [hd, bytesToHex_data]
    simp only [List.length_cons]
    rw [← ht, ih]
    omega

theorem sha256_length (m : List Nat) : (sha256 m).length = 32 := by
  simp [sha256, be32]

theorem hmacHex_length (key msg : String) : (hmacHex key msg).length = 64 := by
  have h1 : (hmacSha256 (utf8 key) (utf8 msg)).length = 32 := by
    simp only [hmacSha256]
    exact sha256_length _
  simp only [hmacHex]
  rw [bytesToHex_length, h1]

/-- A string of any other length differs from an HMAC hex digest; used to
exhibit concrete mismatching signatures without evaluating the digest. -/
theorem ne_hmacHex_of_length {s key msg : String} (h : s.length ≠ 64) :
    s ≠ hmacHex key msg := by
  intro he
  exact h (he ▸ hmacHex_length key msg)

end Crypto

namespace Server

theorem findUser_setPaid (store : Store) (uid v : Nat) :
    findUser (setPaid store uid) v =
      (findUser store v).map (fun u => if u.id == uid then { u with hasPaid := true } else u) := by
  simp only [findUser, setPaid]
  rw [List.find?_map]
  have hp : ((fun u : User => u.id == v) ∘
      (fun u : User => if u.id == uid then { u with hasPaid := true } else u)) =
      fun u : User => u.id == v := by
    funext u
    by_cases h : u.id = uid <;> simp [h]
  rw [hp]

theorem hasPaidIn_setPaid_mono {store : Store} {v : Nat} (uid : Nat)
    (h : hasPaidIn store v = true) : hasPaidIn (setPaid store uid) v = true := by
  unfold hasPaidIn at *
  rw [findUser_setPaid]
  cases hf : findUser store v with
  | none => rw [hf] at h; simp at h
  | some u =>
    rw [hf] at h
    have h' : u.hasPaid = true := h
    by_cases hc : u.id = uid <;> simp [hc, h']

theorem hasPaidIn_append_mono {store : Store} {v : Nat} (l : List User)
    (h : hasPaidIn store v = true) : hasPaidIn (store ++ l) v = true := by
  unfold hasPaidIn findUser at *
  cases hf : store.find? (fun u => u.id == v) with
  | none => rw [hf] at h; simp at h
  | some u =>
    rw [hf] at h
    have h' : u.hasPaid = true := h
    rw [List.find?_append, hf]
    simpa using h'

/-- C1: on /payment-success with an authenticated session, the expected
signature is HMAC-SHA256 keyed by the server's gateway secret over the string
`razorpay_order_id ++ "|" ++ razorpay_payment_id` (order id first), rendered
as a lowercase hex digest, and the verdict is exact string equality between
that expected value and the supplied signature. -/
theorem payment_signature_scheme (secret : String) (body : PayBody) (sess : Session)
    (store : Store) (dbOk : Bool) (hauth : truthyId sess.userId = true) :
    ((paymentSuccess secret body sess store dbOk).result = PayResult.invalidSignature ↔
      body.razorpay_signature ≠
        Crypto.hmacHex secret (body.razorpay_order_id ++ "|" ++ body.razorpay_payment_id)) ∧
    (∀ c ∈ (Crypto.hmacHex secret
        (body.razorpay_order_id ++ "|" ++ body.razorpay_payment_id)).data,
      c ∈ ("0123456789abcdef").data) := by
  refine ⟨?_, Crypto.hmacHex_chars _ _⟩
  unfold paymentSuccess
  simp only [hauth, Bool.not_true, Bool.false_eq_true, if_false, bne_iff_ne]
  by_cases h : body.razorpay_signature =
      Crypto.hmacHex secret (body.razorpay_order_id ++ "|" ++ body.razorpay_payment_id)
  · rw [if_neg (by simp [h])]
    cases dbOk <;> simp [h]
  · rw [if_pos (Ne.symm h)]
    simp [h]

/-- C1 witness: the characterization instantiated at a concrete authenticated
request. -/
theorem payment_signature_scheme_witness :
    ((paymentSuccess "key_secret" ⟨"pay_1", "order_1", "sig"⟩ ⟨some 1, false⟩ [] true).result =
        PayResult.invalidSignature ↔
      "sig" ≠ Crypto.hmacHex "key_secret" ("order_1" ++ "|" ++ "pay_1")) ∧
    (∀ c ∈ (Crypto.hmacHex "key_secret" ("order_1" ++ "|" ++ "pay_1")).data,
      c ∈ ("0123456789abcdef").data) :=
  payment_signature_scheme "key_secret" ⟨"pay_1", "order_1", "sig"⟩ ⟨some 1, false⟩ [] true
    (by decide)

/-- C2: on /payment-success with an authenticated session and a signature that
differs from the recomputed HMAC, the handler answers 400 Invalid signature
and changes nothing: the users table and the session are returned as given. -/
theorem invalid_signature_rejected (secret : String) (body : PayBody) (sess : Session)
    (store : Store) (dbOk : Bool) (hauth : truthyId sess.userId = true)
    (hsig : body.razorpay_signature ≠
      Crypto.hmacHex secret (body.razorpay_order_id ++ "|" ++ body.razorpay_payment_id)) :
    (paymentSuccess secret body sess store dbOk).result = PayResult.invalidSignature ∧
    (paymentSuccess secret body sess store dbOk).result.status = 400 ∧
    (paymentSuccess secret body sess store dbOk).store = store ∧
    (paymentSuccess secret body sess store dbOk).sess = sess := by
  unfold paymentSuccess
  simp only [hauth, Bool.not_true, Bool.false_eq_true, if_false, bne_iff_ne]
  rw [if_pos (Ne.symm hsig)]
  exact ⟨rfl, rfl, rfl, rfl⟩

/-- C2 witness: a concrete tampered signature (wrong length, hence certainly
not the digest) is rejected with 400 and no state change. -/
theorem invalid_signature_rejected_witness :
    (paymentSuccess "key_secret" ⟨"pay_1", "order_1", "tampered"⟩ ⟨some 1, false⟩
        [⟨1, "n", "a@b.c", "h", false⟩] true).result = PayResult.invalidSignature ∧
    (paymentSuccess "key_secret" ⟨"pay_1", "order_1", "tampered"⟩ ⟨some 1, false⟩
        [⟨1, "n", "a@b.c", "h", false⟩] true).result.status = 400 ∧
    (paymentSuccess "key_secret" ⟨"pay_1", "order_1", "tampered"⟩ ⟨some 1, false⟩
        [⟨1, "n", "a@b.c", "h", false⟩] true).store = [⟨1, "n", "a@b.c", "h", false⟩] ∧
    (paymentSuccess "key_secret" ⟨"pay_1", "order_1", "tampered"⟩ ⟨some 1, false⟩
        [⟨1, "n", "a@b.c", "h", false⟩] true).sess = ⟨some 1, false⟩ :=
  invalid_signature_rejected "key_secret" ⟨"pay_1", "order_1", "tampered"⟩ ⟨some 1, false⟩
    [⟨1, "n", "a@b.c", "h", false⟩] true (by decide)
    (Crypto.ne_hmacHex_of_length (by decide))

/-- C3: on /payment-success without an authenticated session the handler
answers 401 Login required, the HMAC is never computed, no store write
happens and the session is untouched; in every run the session check is the
first observable event, so it strictly precedes any HMAC computation. -/
theorem unauthenticated_payment_rejected (secret : String) (body : PayBody) (sess : Session)
    (store : Store) (dbOk : Bool) (h : truthyId sess.userId = false) :
    (paymentSuccess secret body sess store dbOk).result = PayResult.loginRequired ∧
    (paymentSuccess secret body sess store dbOk).result.status = 401 ∧
    (paymentSuccess secret body sess store dbOk).store = store ∧
    (paymentSuccess secret body sess store dbOk).sess = sess ∧
    Ev.hmacComputed ∉ (paymentSuccess secret body sess store dbOk).trace ∧
    (∀ uid : Nat, Ev.storeWrite uid ∉ (paymentSuccess secret body sess store dbOk).trace) ∧
    (∀ sess2 : Session,
      (paymentSuccess secret body sess2 store dbOk).trace.head? = some Ev.sessionCheck) := by
  refine ⟨?_, ?_, ?_, ?_, ?_, ?_, ?_⟩
  case _ => unfold paymentSuccess; simp [h]
  case _ => unfold paymentSuccess; simp [h, PayResult.status]
  case _ => unfold paymentSuccess; simp [h]
  case _ => unfold paymentSuccess; simp [h]
  case _ => unfold paymentSuccess; simp [h]
  case _ => intro uid; unfold paymentSuccess; simp [h]
  case _ =>
    intro sess2
    unfold paymentSuccess
    split
    · rfl
    · dsimp only
      split <;> first | rfl | (split <;> rfl)

/-- C3 witness: the rejection at a concrete anonymous request. -/
theorem unauthenticated_payment_rejected_witness :
    (paymentSuccess "key_secret" ⟨"pay_1", "order_1", "sig"⟩ ⟨none, false⟩
        [⟨1, "n", "a@b.c", "h", false⟩] true).result = PayResult.loginRequired ∧
    (paymentSuccess "key_secret" ⟨"pay_1", "order_1", "sig"⟩ ⟨none, false⟩
        [⟨1, "n", "a@b.c", "h", false⟩] true).result.status = 401 ∧
    (paymentSuccess "key_secret" ⟨"pay_1", "order_1", "sig"⟩ ⟨none, false⟩
        [⟨1, "n", "a@b.c", "h", false⟩] true).store = [⟨1, "n", "a@b.c", "h", false⟩] ∧
    (paymentSuccess "key_secret" ⟨"pay_1", "order_1", "sig"⟩ ⟨none, false⟩
        [⟨1, "n", "a@b.c", "h", false⟩] true).sess = ⟨none, false⟩ ∧
    Ev.hmacComputed ∉ (paymentSuccess "key_secret" ⟨"pay_1", "order_1", "sig"⟩ ⟨none, false⟩
        [⟨1, "n", "a@b.c", "h", false⟩] true).trace ∧
    (∀ uid : Nat, Ev.storeWrite uid ∉ (paymentSuccess "key_secret" ⟨"pay_1", "order_1", "sig"⟩
        ⟨none, false⟩ [⟨1, "n", "a@b.c", "h", false⟩] true).trace) ∧
    (∀ sess2 : Session,
      (paymentSuccess "key_secret" ⟨"pay_1", "order_1", "sig"⟩ sess2
        [⟨1, "n", "a@b.c", "h", false⟩] true).trace.head? = some Ev.sessionCheck) :=
  unauthenticated_payment_rejected "key_secret" ⟨"pay_1", "order_1", "sig"⟩ ⟨none, false⟩
    [⟨1, "n", "a@b.c", "h", false⟩] true (by decide)

/-- C5: login with a wrong password never succeeds and answers exactly what
an unknown email answers: the same 401 status with the same body Invalid, so
the two failure causes are indistinguishable; the wrong-password run also
leaves the session unchanged. -/
theorem login_failure_indistinguishable (verify : String → String → Bool)
    (e1 p1 : String) (st1 : Store) (s1 : Session)
    (e2 p2 : String) (st2 : Store) (s2 : Session) (u : User)
    (h1 : findByEmail st1 e1 = none)
    (h2 : findByEmail st2 e2 = some u)
    (h3 : verify p2 u.password = false) :
    (login verify e1 p1 st1 s1).status = 401 ∧
    (login verify e1 p1 st1 s1).body = "Invalid" ∧
    (login verify e2 p2 st2 s2).status = 401 ∧
    (login verify e2 p2 st2 s2).body = "Invalid" ∧
    (login verify e1 p1 st1 s1).status = (login verify e2 p2 st2 s2).status ∧
    (login verify e1 p1 st1 s1).body = (login verify e2 p2 st2 s2).body ∧
    (login verify e2 p2 st2 s2).sess = s2 := by
  have L1 : login verify e1 p1 st1 s1 = ⟨401, "Invalid", s1⟩ := by
    unfold login
    rw [h1]
  have L2 : login verify e2 p2 st2 s2 = ⟨401, "Invalid", s2⟩ := by
    unfold login
    rw [h2]
    simp [h3]
  rw [L1, L2]
  exact ⟨rfl, rfl, rfl, rfl, rfl, rfl, rfl⟩

/-- C5 witness: an unknown email against an empty table and a wrong password
against a one-row table produce the identical response. -/
theorem login_failure_indistinguishable_witness :
    (login (fun _ _ => false) "x@y.z" "pw" [] ⟨none, false⟩).status = 401 ∧
    (login (fun _ _ => false) "x@y.z" "pw" [] ⟨none, false⟩).body = "Invalid" ∧
    (login (fun _ _ => false) "a@b.c" "pw" [⟨1, "n", "a@b.c", "h", false⟩]
      ⟨none, false⟩).status = 401 ∧
    (login (fun _ _ => false) "a@b.c" "pw" [⟨1, "n", "a@b.c", "h", false⟩]
      ⟨none, false⟩).body = "Invalid" ∧
    (login (fun _ _ => false) "x@y.z" "pw" [] ⟨none, false⟩).status =
      (login (fun _ _ => false) "a@b.c" "pw" [⟨1, "n", "a@b.c", "h", false⟩]
        ⟨none, false⟩).status ∧
    (login (fun _ _ => false) "x@y.z" "pw" [] ⟨none, false⟩).body =
      (login (fun _ _ => false) "a@b.c" "pw" [⟨1, "n", "a@b.c", "h", false⟩]
        ⟨none, false⟩).body ∧
    (login (fun _ _ => false) "a@b.c" "pw" [⟨1, "n", "a@b.c", "h", false⟩]
      ⟨none, false⟩).sess = ⟨none, false⟩ :=
  login_failure_indistinguishable (fun _ _ => false) "x@y.z" "pw" [] ⟨none, false⟩
    "a@b.c" "pw" [⟨1, "n", "a@b.c", "h", false⟩] ⟨none, false⟩
    ⟨1, "n", "a@b.c", "h", false⟩ rfl (by decide) rfl

/-- C6: /create-order takes no caller-supplied amount: the request sent to
the gateway carries the fixed 20000-paise fee whatever the request body, the
gateway's order object is returned verbatim on success, and a gateway
failure is a 500 outcome. -/
theorem create_order_fixed_amount {α : Type} (gw : OrderReq → Except Unit α) (now : Nat)
    (b1 b2 : List (String × String)) :
    (createOrderReq now).amount = fixedAmount ∧ fixedAmount = 20000 ∧
    createOrder gw now b1 = createOrder gw now b2 ∧
    (∀ o : α, gw (createOrderReq now) = Except.ok o →
      createOrder gw now b1 = CreateOrderResult.json o) ∧
    (∀ e : Unit, gw (createOrderReq now) = Except.error e →
      createOrder gw now b1 = CreateOrderResult.orderCreationFailed ∧
      (createOrder gw now b1).status = 500) := by
  refine ⟨rfl, rfl, rfl, ?_, ?_⟩
  · intro o ho
    unfold createOrder
    rw [ho]
  · intro e he
    unfold createOrder
    rw [he]
    exact ⟨rfl, rfl⟩

/-- C6 witness: the characterization instantiated at a concrete gateway that
answers the order object 7, with two different request bodies. -/
theorem create_order_fixed_amount_witness :
    (createOrderReq 5).amount = fixedAmount ∧ fixedAmount = 20000 ∧
    createOrder (fun _ => Except.ok 7) 5 [("amount", "1")] =
      createOrder (fun _ => Except.ok 7) 5 [] ∧
    (∀ o : Nat, (fun _ : OrderReq => Except.ok (ε := Unit) 7) (createOrderReq 5) = Except.ok o →
      createOrder (fun _ => Except.ok 7) 5 [("amount", "1")] = CreateOrderResult.json o) ∧
    (∀ e : Unit, (fun _ : OrderReq => Except.ok (ε := Unit) 7) (createOrderReq 5) = Except.error e →
      createOrder (fun _ => Except.ok 7) 5 [("amount", "1")] =
        CreateOrderResult.orderCreationFailed ∧
      (createOrder (fun _ => Except.ok 7) 5 [("amount", "1")]).status = 500) :=
  create_order_fixed_amount (fun _ => Except.ok 7) 5 [("amount", "1")] []

/-- C7: GET /dashboard redirects to login without a session user, redirects
to payment when the cached hasPaid is false, and serves the dashboard only
when both hold; by its type it reads nothing but the session. -/
theorem dashboard_authorization (sess : Session) :
    (truthyId sess.userId = false → dashboard sess = DashboardResult.redirectLogin) ∧
    (truthyId sess.userId = true → sess.hasPaid = false →
      dashboard sess = DashboardResult.redirectPayment) ∧
    (truthyId sess.userId = true → sess.hasPaid = true →
      dashboard sess = DashboardResult.serveDashboard) := by
  refine ⟨?_, ?_, ?_⟩
  · intro h
    unfold dashboard
    simp [h]
  · intro h h2
    unfold dashboard
    simp [h, h2]
  · intro h h2
    unfold dashboard
    simp [h, h2]

/-- Any user row found at the updated id after `setPaid` carries
`hasPaid = true`. -/
theorem setPaid_hasPaid {store : Store} {uid : Nat} {u : User}
    (hu : findUser (setPaid store uid) uid = some u) : u.hasPaid = true := by
  rw [findUser_setPaid] at hu
  cases hf : findUser store uid with
  | none => rw [hf] at hu; simp at hu
  | some u0 =>
    rw [hf] at hu
    have hid : (u0.id == uid) = true := by
      have := List.find?_some (p := fun v : User => v.id == uid) (by simpa [findUser] using hf)
      exact this
    simp only [Option.map_some'] at hu
    injection hu with hu
    subst hu
    simp [hid]

/-- C4: on /payment-success with an authenticated session and a matching
signature, the successful run sets `has_paid = true` in the store for the
session's user, then sets the session's cached hasPaid — the store write
occurs strictly before the session update in the trace — while a failing
store write yields 500 with both the store and the session unchanged. -/
theorem verified_payment_updates (secret : String) (body : PayBody) (sess : Session)
    (store : Store) (uid : Nat) (huid : sess.userId = some uid) (h0 : uid ≠ 0)
    (hsig : body.razorpay_signature =
      Crypto.hmacHex secret (body.razorpay_order_id ++ "|" ++ body.razorpay_payment_id)) :
    ((paymentSuccess secret body sess store true).result = PayResult.ok ∧
     (paymentSuccess secret body sess store true).result.status = 200 ∧
     (paymentSuccess secret body sess store true).store = setPaid store uid ∧
     (∀ u : User, findUser (paymentSuccess secret body sess store true).store uid = some u →
       u.hasPaid = true) ∧
     (paymentSuccess secret body sess store true).sess = { sess with hasPaid := true } ∧
     (paymentSuccess secret body sess store true).trace =
       [Ev.sessionCheck, Ev.hmacComputed, Ev.storeWrite uid, Ev.sessionSet] ∧
     (∃ i j : Nat, i < j ∧
       (paymentSuccess secret body sess store true).trace[i]? = some (Ev.storeWrite uid) ∧
       (paymentSuccess secret body sess store true).trace[j]? = some Ev.sessionSet)) ∧
    ((paymentSuccess secret body sess store false).result = PayResult.dbError ∧
     (paymentSuccess secret body sess store false).result.status = 500 ∧
     (paymentSuccess secret body sess store false).sess = sess ∧
     (paymentSuccess secret body sess store false).store = store) := by
  have hrun : paymentSuccess secret body sess store true =
      ⟨PayResult.ok, setPaid store uid, { sess with hasPaid := true },
        [Ev.sessionCheck, Ev.hmacComputed, Ev.storeWrite uid, Ev.sessionSet]⟩ := by
    unfold paymentSuccess
    rw [huid]
    simp [truthyId, h0, hsig]
  have hfail : paymentSuccess secret body sess store false =
      ⟨PayResult.dbError, store, sess, [Ev.sessionCheck, Ev.hmacComputed]⟩ := by
    unfold paymentSuccess
    rw [huid]
    simp [truthyId, h0, hsig]
  rw [hrun, hfail]
  refine ⟨⟨rfl, rfl, rfl, ?_, rfl, rfl, ⟨2, 3, by omega, rfl, rfl⟩⟩, rfl, rfl, rfl, rfl⟩
  intro u hu
  exact setPaid_hasPaid hu

/-- C4 witness: a concrete verified payment at user 2 and both store
outcomes. -/
theorem verified_payment_updates_witness :
    ((paymentSuccess "ks" ⟨"pay_9", "order_9",
        Crypto.hmacHex "ks" ("order_9" ++ "|" ++ "pay_9")⟩ ⟨some 2, false⟩
        [⟨2, "bob", "b@c.d", "hh", false⟩] true).result = PayResult.ok ∧
     (paymentSuccess "ks" ⟨"pay_9", "order_9",
        Crypto.hmacHex "ks" ("order_9" ++ "|" ++ "pay_9")⟩ ⟨some 2, false⟩
        [⟨2, "bob", "b@c.d", "hh", false⟩] true).result.status = 200 ∧
     (paymentSuccess "ks" ⟨"pay_9", "order_9",
        Crypto.hmacHex "ks" ("order_9" ++ "|" ++ "pay_9")⟩ ⟨some 2, false⟩
        [⟨2, "bob", "b@c.d", "hh", false⟩] true).store =
       setPaid [⟨2, "bob", "b@c.d", "hh", false⟩] 2 ∧
     (∀ u : User, findUser (paymentSuccess "ks" ⟨"pay_9", "order_9",
        Crypto.hmacHex "ks" ("order_9" ++ "|" ++ "pay_9")⟩ ⟨some 2, false⟩
        [⟨2, "bob", "b@c.d", "hh", false⟩] true).store 2 = some u → u.hasPaid = true) ∧
     (paymentSuccess "ks" ⟨"pay_9", "order_9",
        Crypto.hmacHex "ks" ("order_9" ++ "|" ++ "pay_9")⟩ ⟨some 2, false⟩
        [⟨2, "bob", "b@c.d", "hh", false⟩] true).sess =
       { userId := some 2, hasPaid := true } ∧
     (paymentSuccess "ks" ⟨"pay_9", "order_9",
        Crypto.hmacHex "ks" ("order_9" ++ "|" ++ "pay_9")⟩ ⟨some 2, false⟩
        [⟨2, "bob", "b@c.d", "hh", false⟩] true).trace =
       [Ev.sessionCheck, Ev.hmacComputed, Ev.storeWrite 2, Ev.sessionSet] ∧
     (∃ i j : Nat, i < j ∧
       (paymentSuccess "ks" ⟨"pay_9", "order_9",
          Crypto.hmacHex "ks" ("order_9" ++ "|" ++ "pay_9")⟩ ⟨some 2, false⟩
          [⟨2, "bob", "b@c.d", "hh", false⟩] true).trace[i]? = some (Ev.storeWrite 2) ∧
       (paymentSuccess "ks" ⟨"pay_9", "order_9",
          Crypto.hmacHex "ks" ("order_9" ++ "|" ++ "pay_9")⟩ ⟨some 2, false⟩
          [⟨2, "bob", "b@c.d", "hh", false⟩] true).trace[j]? = some Ev.sessionSet)) ∧
    ((paymentSuccess "ks" ⟨"pay_9", "order_9",
        Crypto.hmacHex "ks" ("order_9" ++ "|" ++ "pay_9")⟩ ⟨some 2, false⟩
        [⟨2, "bob", "b@c.d", "hh", false⟩] false).result = PayResult.dbError ∧
     (paymentSuccess "ks" ⟨"pay_9", "order_9",
        Crypto.hmacHex "ks" ("order_9" ++ "|" ++ "pay_9")⟩ ⟨some 2, false⟩
        [⟨2, "bob", "b@c.d", "hh", false⟩] false).result.status = 500 ∧
     (paymentSuccess "ks" ⟨"pay_9", "order_9",
        Crypto.hmacHex "ks" ("order_9" ++ "|" ++ "pay_9")⟩ ⟨some 2, false⟩
        [⟨2, "bob", "b@c.d", "hh", false⟩] false).sess = ⟨some 2, false⟩ ∧
     (paymentSuccess "ks" ⟨"pay_9", "order_9",
        Crypto.hmacHex "ks" ("order_9" ++ "|" ++ "pay_9")⟩ ⟨some 2, false⟩
        [⟨2, "bob", "b@c.d", "hh", false⟩] false).store =
       [⟨2, "bob", "b@c.d", "hh", false⟩]) :=
  verified_payment_updates "ks" ⟨"pay_9", "order_9",
    Crypto.hmacHex "ks" ("order_9" ++ "|" ++ "pay_9")⟩ ⟨some 2, false⟩
    [⟨2, "bob", "b@c.d", "hh", false⟩] 2 rfl (by decide) rfl

/-- C8: hasPaid is monotone across every in-scope operation — no operation
ever takes it from true back to false — and a freshly registered row starts
with hasPaid false. -/
theorem hasPaid_monotone :
    (∀ (op : Op) (st : Store) (uid : Nat),
      hasPaidIn st uid = true → hasPaidIn (stepStore op st) uid = true) ∧
    (∀ (hash : String → String) (n e p : String) (nid : Nat) (st : Store) (ok : Bool)
      (u : User), u ∈ (register hash n e p nid st ok).store → u ∉ st → u.hasPaid = false) := by
  constructor
  · intro op st uid h
    cases op with
    | register hash n e p nid ok =>
      simp only [stepStore]
      unfold register
      split
      · exact h
      · split
        · exact h
        · exact hasPaidIn_append_mono _ h
    | paymentSuccess secret body sess ok =>
      simp only [stepStore]
      unfold paymentSuccess
      split
      · exact h
      · dsimp only
        split
        · exact h
        · split
          · exact hasPaidIn_setPaid_mono _ h
          · exact h
    | login verify e p sess => exact h
    | createOrder => exact h
    | contact => exact h
    | dashboard => exact h
  · intro hash n e p nid st ok u hu hnot
    unfold register at hu
    split at hu
    · exact absurd hu hnot
    · split at hu
      · exact absurd hu hnot
      · rcases List.mem_append.mp hu with hmem | hmem
        · exact absurd hmem hnot
        · simp only [List.mem_singleton] at hmem
          subst hmem
          rfl

/-- C8 witness: a paid user stays paid through a payment-success step, and a
concrete registration inserts its row with hasPaid false. -/
theorem hasPaid_monotone_witness :
    hasPaidIn (stepStore (Op.paymentSuccess "k" ⟨"p", "o", "s"⟩ ⟨some 1, false⟩ true)
      [⟨1, "n", "a@b.c", "h", true⟩]) 1 = true ∧
    (⟨5, "m", "m@x.y", "hh", false⟩ : User).hasPaid = false :=
  ⟨hasPaid_monotone.1 (Op.paymentSuccess "k" ⟨"p", "o", "s"⟩ ⟨some 1, false⟩ true)
      [⟨1, "n", "a@b.c", "h", true⟩] 1 (by decide),
   hasPaid_monotone.2 (fun _ => "hh") "m" "m@x.y" "pw" 5 [] true
      ⟨5, "m", "m@x.y", "hh", false⟩ (by decide) (by decide)⟩

/-- C9 counterexample: with SESSION_SECRET absent, the middleware does fall
back to the insecure default, but nothing in the code flags the absence: the
code-side flag (constantly false, there being no check anywhere in startup)
differs from the flag the spec demands. -/
theorem session_secret_flag_counterexample :
    sessionSecret none = "change_this_secret" ∧
    flagsMissingSessionSecret none = false ∧
    specFlagsMissingSessionSecret none = true ∧
    flagsMissingSessionSecret none ≠ specFlagsMissingSessionSecret none :=
  ⟨rfl, rfl, rfl, by decide⟩

/-- C9 amended: when the session-secret configuration value is absent (or
empty, which the JS or-operator also treats as missing), the program falls
back to the insecure default silently; no code path flags the absence as a
deployment error. -/
theorem session_secret_silent_fallback :
    sessionSecret none = "change_this_secret" ∧
    sessionSecret (some "") = "change_this_secret" ∧
    (∀ env : Option String, flagsMissingSessionSecret env = false) :=
  ⟨rfl, rfl, fun _ => rfl⟩

/-- C10: the check binds the verified pair only to the HMAC secret.  The
program keeps no record of the orders it created, so any (orderId, paymentId)
pair whose digest under the gateway secret matches is accepted — whatever
amount or user the order may have belonged to, or whether it ever existed —
and marks the session's own user paid; and the verdict is the same whichever
authenticated user is logged in. -/
theorem signature_binds_only_secret (secret orderId paymentId : String)
    (sess : Session) (store : Store) (uid : Nat)
    (huid : sess.userId = some uid) (h0 : uid ≠ 0) :
    ((paymentSuccess secret ⟨paymentId, orderId,
        Crypto.hmacHex secret (orderId ++ "|" ++ paymentId)⟩ sess store true).result =
      PayResult.ok) ∧
    ((paymentSuccess secret ⟨paymentId, orderId,
        Crypto.hmacHex secret (orderId ++ "|" ++ paymentId)⟩ sess store true).store =
      setPaid store uid) ∧
    (∀ u : User, findUser (paymentSuccess secret ⟨paymentId, orderId,
        Crypto.hmacHex secret (orderId ++ "|" ++ paymentId)⟩ sess store true).store uid =
        some u → u.hasPaid = true) ∧
    (∀ (sess2 : Session) (uid2 : Nat), sess2.userId = some uid2 → uid2 ≠ 0 →
      (paymentSuccess secret ⟨paymentId, orderId,
        Crypto.hmacHex secret (orderId ++ "|" ++ paymentId)⟩ sess2 store true).result =
        PayResult.ok) := by
  have hrun : ∀ (s2 : Session) (u2 : Nat), s2.userId = some u2 → u2 ≠ 0 →
      paymentSuccess secret ⟨paymentId, orderId,
        Crypto.hmacHex secret (orderId ++ "|" ++ paymentId)⟩ s2 store true =
      ⟨PayResult.ok, setPaid store u2, { s2 with hasPaid := true },
        [Ev.sessionCheck, Ev.hmacComputed, Ev.storeWrite u2, Ev.sessionSet]⟩ := by
    intro s2 u2 hu2 h02
    unfold paymentSuccess
    rw [hu2]
    simp [truthyId, h02]
  refine ⟨?_, ?_, ?_, ?_⟩
  · rw [hrun sess uid huid h0]
  · rw [hrun sess uid huid h0]
  · rw [hrun sess uid huid h0]
    intro u hu
    exact setPaid_hasPaid hu
  · intro s2 u2 hu2 h02
    rw [hrun s2 u2 hu2 h02]

/-- C10 witness: a pair this server never issued, with a valid digest, marks
the session's user 3 paid. -/
theorem signature_binds_only_secret_witness :
    ((paymentSuccess "gw_secret" ⟨"pay_77", "foreign_order",
        Crypto.hmacHex "gw_secret" ("foreign_order" ++ "|" ++ "pay_77")⟩
        ⟨some 3, false⟩ [⟨3, "carol", "c@d.e", "hh", false⟩] true).result =
      PayResult.ok) ∧
    ((paymentSuccess "gw_secret" ⟨"pay_77", "foreign_order",
        Crypto.hmacHex "gw_secret" ("foreign_order" ++ "|" ++ "pay_77")⟩
        ⟨some 3, false⟩ [⟨3, "carol", "c@d.e", "hh", false⟩] true).store =
      setPaid [⟨3, "carol", "c@d.e", "hh", false⟩] 3) ∧
    (∀ u : User, findUser (paymentSuccess "gw_secret" ⟨"pay_77", "foreign_order",
        Crypto.hmacHex "gw_secret" ("foreign_order" ++ "|" ++ "pay_77")⟩
        ⟨some 3, false⟩ [⟨3, "carol", "c@d.e", "hh", false⟩] true).store 3 =
        some u → u.hasPaid = true) ∧
    (∀ (sess2 : Session) (uid2 : Nat), sess2.userId = some uid2 → uid2 ≠ 0 →
      (paymentSuccess "gw_secret" ⟨"pay_77", "foreign_order",
        Crypto.hmacHex "gw_secret" ("foreign_order" ++ "|" ++ "pay_77")⟩
        sess2 [⟨3, "carol", "c@d.e", "hh", false⟩] true).result = PayResult.ok) :=
  signature_binds_only_secret "gw_secret" "foreign_order" "pay_77" ⟨some 3, false⟩
    [⟨3, "carol", "c@d.e", "hh", false⟩] 3 rfl (by decide)

/-- C7 witness: the three outcomes at three concrete sessions. -/
theorem dashboard_authorization_witness :
    dashboard ⟨none, false⟩ = DashboardResult.redirectLogin ∧
    dashboard ⟨some 1, false⟩ = DashboardResult.redirectPayment ∧
    dashboard ⟨some 1, true⟩ = DashboardResult.serveDashboard :=
  ⟨(dashboard_authorization ⟨none, false⟩).1 (by decide),
   (dashboard_authorization ⟨some 1, false⟩).2.1 (by decide) (by decide),
   (dashboard_authorization ⟨some 1, true⟩).2.2 (by decide) (by decide)⟩

end Server
